import Mathlib

/-!
Verification of the conversation-intelligence core of the chatbot repository.

This file is a shallow embedding, in Lean 4, of the Python modules
src/chatbot/cooldown_manager.py, src/chatbot/enhanced_conversation_state.py,
src/chatbot/phase_engine.py, src/chatbot/memory_recall_controller.py and the
configuration module src/chatbot/conversation_intelligence_config.py, together
with theorems settling the behavioural claims about those modules.

Modelling conventions:
- Python module-level mutable dictionaries become explicit state values that
  the embedded functions take and return.
- The module-level feature flags become explicit boolean parameters (the
  source initialises them to true; constants with the source values are kept).
- Python floats that only ever hold small decimal constants are modelled as
  rationals.
- The random draw of random.random() inside the memory-recall controller is
  modelled as an explicit rational oracle argument.
-/

namespace Chatbot

/-! ## conversation_intelligence_config.py -/

namespace CiConfig

/-- ENABLE_CONVERSATION_INTELLIGENCE from conversation_intelligence_config.py. -/
def ENABLE_CONVERSATION_INTELLIGENCE : Bool := true

/-- ENABLE_PHASE_ENGINE from conversation_intelligence_config.py. -/
def ENABLE_PHASE_ENGINE : Bool := true

/-- ENABLE_MEMORY_RECALL from conversation_intelligence_config.py. -/
def ENABLE_MEMORY_RECALL : Bool := true

/-- ENABLE_COOLDOWNS from conversation_intelligence_config.py. -/
def ENABLE_COOLDOWNS : Bool := true

/-- VENTING_MIN_LENGTH from conversation_intelligence_config.py (characters). -/
def VENTING_MIN_LENGTH : Nat := 100

/-- VENTING_MIN_WORDS from conversation_intelligence_config.py. -/
def VENTING_MIN_WORDS : Nat := 20

/-- VENTING_SIGNAL_THRESHOLD from conversation_intelligence_config.py. -/
def VENTING_SIGNAL_THRESHOLD : Int := 2

/-- REFLECT_MIN_TURNS from conversation_intelligence_config.py. -/
def REFLECT_MIN_TURNS : Nat := 2

/-- CELEBRATING_STREAK_THRESHOLD from conversation_intelligence_config.py. -/
def CELEBRATING_STREAK_THRESHOLD : Nat := 2

/-- CALMING_STREAK_THRESHOLD from conversation_intelligence_config.py. -/
def CALMING_STREAK_THRESHOLD : Nat := 2

/-- MEMORY_RECALL_MIN_TURNS from conversation_intelligence_config.py. -/
def MEMORY_RECALL_MIN_TURNS : Nat := 3

/-- MEMORY_RECALL_MIN_OCCURRENCES from conversation_intelligence_config.py. -/
def MEMORY_RECALL_MIN_OCCURRENCES : Nat := 2

/-- MEMORY_RECALL_PROBABILITY from conversation_intelligence_config.py (0.4). -/
def MEMORY_RECALL_PROBABILITY : Rat := 2 / 5

/-- MEMORY_ALLOWED_PHASES from conversation_intelligence_config.py. -/
def MEMORY_ALLOWED_PHASES : List String := ["reflecting", "celebrating", "calming"]

/-- VENT_SCORE_THRESHOLD from conversation_intelligence_config.py. -/
def VENT_SCORE_THRESHOLD : Rat := 3

end CiConfig

/-! ## cooldown_manager.py

The module keeps a global dictionary
mapping a user id to a per-user dictionary from category to remaining turns.
We model the global dictionary as a function from user ids to association
lists (Python dicts preserve insertion order and have unique keys), and each
function takes the module flag ENABLE_COOLDOWNS as an explicit parameter. -/

namespace CooldownManager

/-- DEFAULT_COOLDOWN from cooldown_manager.py. -/
def DEFAULT_COOLDOWN : Int := 3

/-- CATEGORY_COOLDOWNS from cooldown_manager.py. -/
def CATEGORY_COOLDOWNS : List (String × Int) :=
  [("what_happened", 3), ("memory_callback", 4), ("breathe_tip", 3),
   ("celebration", 2), ("grounding", 3)]

/-- The value the source gives the module flag ENABLE_COOLDOWNS. -/
def ENABLE_COOLDOWNS : Bool := true

/-- Model of the module-level dictionary of cooldown_manager.py:
user id to association list from category to remaining turns. -/
def Store : Type := String → List (String × Int)

/-- The initial (empty) cooldown store: a fresh defaultdict. -/
def emptyStore : Store := fun _ => []

/-- Keys of a per-user cooldown dictionary. -/
def keys (l : List (String × Int)) : List String := l.map Prod.fst

/-- Python dict assignment d[category] = turns: overwrite in place when the
key is present, otherwise append at the end (insertion order). -/
def setAssoc (l : List (String × Int)) (category : String) (turns : Int) :
    List (String × Int) :=
  match l with
  | [] => [(category, turns)]
  | (k, w) :: rest =>
      if k = category then (category, turns) :: rest
      else (k, w) :: setAssoc rest category turns

/-- is_on_cooldown from cooldown_manager.py. -/
def is_on_cooldown (enabled : Bool) (st : Store) (anon_id category : String) : Bool :=
  if !enabled then false
  else if ((st anon_id).lookup category).getD 0 > 0 then true else false

/-- set_cooldown from cooldown_manager.py. A missing turns argument (Python
None) falls back to the category default. -/
def set_cooldown (enabled : Bool) (st : Store) (anon_id category : String)
    (turns : Option Int) : Store :=
  if !enabled then st
  else
    let t := turns.getD ((CATEGORY_COOLDOWNS.lookup category).getD DEFAULT_COOLDOWN)
    fun u => if u = anon_id then setAssoc (st u) category t else st u

/-- One pass of the loop body of decrement_cooldowns over a per-user
dictionary: entries above 1 are decremented, all others are deleted. -/
def decOnce (l : List (String × Int)) : List (String × Int) :=
  l.filterMap fun p => if p.2 > 1 then some (p.1, p.2 - 1) else none

/-- decrement_cooldowns from cooldown_manager.py. -/
def decrement_cooldowns (enabled : Bool) (st : Store) (anon_id : String) : Store :=
  if !enabled then st
  else fun u => if u = anon_id then decOnce (st u) else st u

/-- get_blocked_categories from cooldown_manager.py (the returned Python set,
as the list of qualifying keys). -/
def get_blocked_categories (enabled : Bool) (st : Store) (anon_id : String) :
    List String :=
  if !enabled then []
  else ((st anon_id).filter fun p => decide (p.2 > 0)).map Prod.fst

end CooldownManager

/-! ## conversation_intelligence.py, import surface

conversation_intelligence.py imports, at module level (lines 61 to 65),
three names from chatbot.cooldown_manager, and inside process (step 10) a
fourth one. For the import-integrity claim we record the names bound at
module level of cooldown_manager.py and the names requested from it. -/

/-- Every name bound at module level of src/chatbot/cooldown_manager.py. -/
def cooldownManagerDefinedNames : List String :=
  ["ENABLE_COOLDOWNS", "DEFAULT_COOLDOWN", "CATEGORY_COOLDOWNS", "_cooldowns",
   "is_on_cooldown", "set_cooldown", "decrement_cooldowns",
   "get_blocked_categories", "reset_cooldowns"]

/-- The names src/chatbot/conversation_intelligence.py imports from
chatbot.cooldown_manager at module level (lines 61 to 65). -/
def cooldownNamesImportedByConversationIntelligence : List String :=
  ["apply_cooldowns", "filter_replies_by_cooldown", "is_category_on_cooldown"]

/-- The name imported from src.chatbot.cooldown_manager inside
ConversationIntelligenceLayer.process, step 10 (line 251). -/
def cooldownNameImportedInProcessStep10 : String := "get_cooldown_manager"

/-! ## enhanced_conversation_state.py -/

/-- MAX_EMOTION_HISTORY from EnhancedConversationState. -/
def MAX_EMOTION_HISTORY : Nat := 10

/-- Python slice l[-n:]: the last n elements of l (all of l when shorter). -/
def lastN (n : Nat) (l : List String) : List String := l.drop (l.length - n)

/-- The valence dictionary of EnhancedConversationState._update_trend. -/
def valence_map : List (String × Rat) :=
  [("positive", 3), ("neutral", 2), ("distress", 1), ("strong_distress", 0),
   ("mixed", 3 / 2)]

/-- valence.get(e, 1.5) from EnhancedConversationState._update_trend. -/
def valence (e : String) : Rat := (valence_map.lookup e).getD (3 / 2)

/-- EnhancedConversationState from enhanced_conversation_state.py, restricted
to the fields read or written by the embedded operations. Field defaults are
the dataclass defaults of the source. -/
structure EnhancedConversationState where
  anon_id : String := ""
  current_emotion : String := "neutral"
  initial_emotion : Option String := none
  emotion_history : List String := []
  emotion_trend : String := "unknown"
  turn_count : Nat := 0
  venting_score : Rat := 0
  phase : String := "opening"
  previous_phase : Option String := none
  cooldowns : List (String × Int) := []
  positive_streak : Nat := 0
  neutral_streak : Nat := 0
  distress_streak : Nat := 0
  strong_distress_streak : Nat := 0
  memory_recall_used_this_turn : Bool := false
deriving Repr, DecidableEq

/-- A freshly constructed EnhancedConversationState (all dataclass defaults). -/
def defaultState : EnhancedConversationState := {}

/-- EnhancedConversationState._update_streaks: first reset every streak whose
category differs from the incoming emotion, then increment the matching
streak; strong_distress also increments the general distress streak. -/
def EnhancedConversationState.update_streaks
    (s : EnhancedConversationState) (emotion : String) : EnhancedConversationState :=
  let p := if emotion = "positive" then s.positive_streak else 0
  let n := if emotion = "neutral" then s.neutral_streak else 0
  let d := if emotion = "distress" ∨ emotion = "strong_distress"
           then s.distress_streak else 0
  let sd := if emotion = "strong_distress" then s.strong_distress_streak else 0
  if emotion = "positive" then
    { s with positive_streak := p + 1, neutral_streak := n,
             distress_streak := d, strong_distress_streak := sd }
  else if emotion = "neutral" then
    { s with positive_streak := p, neutral_streak := n + 1,
             distress_streak := d, strong_distress_streak := sd }
  else if emotion = "distress" then
    { s with positive_streak := p, neutral_streak := n,
             distress_streak := d + 1, strong_distress_streak := sd }
  else if emotion = "strong_distress" then
    { s with positive_streak := p, neutral_streak := n,
             distress_streak := d + 1, strong_distress_streak := sd + 1 }
  else
    { s with positive_streak := p, neutral_streak := n,
             distress_streak := d, strong_distress_streak := sd }

/-- EnhancedConversationState._update_trend, as a function of the emotion
history it reads: unknown below 3 entries, otherwise compare the valence
scores at indices 2 and 0 of the last-3 slice. -/
def update_trend (hist : List String) : String :=
  if hist.length < 3 then "unknown"
  else
    let recent := lastN 3 hist
    let scores := recent.map valence
    if scores.getD 2 0 > scores.getD 0 0 then "improving"
    else if scores.getD 2 0 < scores.getD 0 0 then "worsening"
    else "stable"

/-- EnhancedConversationState.update_emotion: record the initial emotion on
first use, append to the bounded history, set the current emotion, update the
streaks, and recompute the trend. -/
def EnhancedConversationState.update_emotion
    (s : EnhancedConversationState) (emotion : String) : EnhancedConversationState :=
  let s0 := { s with initial_emotion := some (s.initial_emotion.getD emotion) }
  let h1 := s0.emotion_history ++ [emotion]
  let h2 := if h1.length > MAX_EMOTION_HISTORY then lastN MAX_EMOTION_HISTORY h1 else h1
  let s1 := { s0 with emotion_history := h2, current_emotion := emotion }
  let s2 := s1.update_streaks emotion
  { s2 with emotion_trend := update_trend s2.emotion_history }

/-- EnhancedConversationState.is_on_cooldown: self.cooldowns.get(category, 0) > 0. -/
def EnhancedConversationState.is_on_cooldown
    (s : EnhancedConversationState) (category : String) : Bool :=
  if (s.cooldowns.lookup category).getD 0 > 0 then true else false

/-- Modelled from the spec of claim C3 and section 3 of spec.md: at most one
of the four streak counters is non-zero, except that after a strong-distress
update the strong-distress and distress streaks are non-zero together. -/
def streak_invariant (s : EnhancedConversationState) : Prop :=
  ([s.positive_streak, s.neutral_streak, s.distress_streak,
    s.strong_distress_streak].countP fun k => decide (k ≠ 0)) ≤ 1 ∨
  (s.positive_streak = 0 ∧ s.neutral_streak = 0 ∧
   s.distress_streak ≠ 0 ∧ s.strong_distress_streak ≠ 0)

/-- Trend recomputation as the spec words it (section 4.2 of spec.md): with
fewer than 3 history entries the trend is unknown; otherwise compare the
valence of the last of the most recent 3 entries against the first of them. -/
def trend_spec (hist : List String) : String :=
  if hist.length < 3 then "unknown"
  else
    match lastN 3 hist with
    | [a, _, c] =>
        if valence c > valence a then "improving"
        else if valence c < valence a then "worsening"
        else "stable"
    | _ => "unknown"

/-! ## phase_engine.py -/

namespace PhaseEngine

/-- CLOSING_PHRASES from phase_engine.py. -/
def CLOSING_PHRASES : List String :=
  ["bye", "goodbye", "see you", "see ya", "later", "gotta go", "gtg",
   "im going", "im leaving", "im out", "peace", "ttyl", "talk later",
   "thats all", "thats it", "im done", "nothing more"]

/-- RANT_STARTERS from phase_engine.py. -/
def RANT_STARTERS : List String :=
  ["i just", "i cant", "i can't", "i hate", "i need to vent",
   "omg", "ugh", "bruh", "dude", "like seriously",
   "you wont believe", "you won't believe", "guess what"]

/-- CELEBRATION_TRIGGERS from phase_engine.py. -/
def CELEBRATION_TRIGGERS : List String :=
  ["yay", "omg yes", "i did it", "finally", "lets go", "let's go",
   "woooo", "yasss", "amazing news", "good news", "great news"]

/-- CALMING_TRIGGERS from phase_engine.py. -/
def CALMING_TRIGGERS : List String :=
  ["i cant breathe", "i can't breathe", "panicking", "panic attack",
   "having a breakdown", "breaking down", "losing it", "cant cope",
   "can't cope", "overwhelmed", "drowning", "suffocating"]

/-- Python str.lower(), character by character. -/
def lowerStr (s : String) : String := String.mk (s.data.map Char.toLower)

/-- The _has_phrase helper of phase_engine.py: some phrase of the set occurs
as a contiguous substring of the lowercased text. -/
def has_phrase (text : String) (phrases : List String) : Bool :=
  phrases.any fun phrase => decide (phrase.data <:+: (lowerStr text).data)

/-- Python text.split() with no separator: split on whitespace runs and drop
empty pieces. -/
def wordCount (text : String) : Nat :=
  ((text.data.splitOnP fun c => c.isWhitespace).filter fun w => !w.isEmpty).length

/-- The _get_text_length_category helper of phase_engine.py. -/
def get_text_length_category (text : String) : String :=
  let char_count := text.length
  let word_count := wordCount text
  if char_count > CiConfig.VENTING_MIN_LENGTH ∨ word_count > CiConfig.VENTING_MIN_WORDS
  then "long"
  else if char_count > 50 ∨ word_count > 10 then "medium"
  else "short"

/-- The signal counts read by the phase engine: signals.get("distress_count", 0)
and signals.get("positive_count", 0). -/
structure Signals where
  distress_count : Int := 0
  positive_count : Int := 0
deriving Repr, DecidableEq

/-- PhaseEngine._detect_venting from phase_engine.py. -/
def detect_venting (text : String) (text_length : String) (_emotion : String)
    (signals : Signals) (state : EnhancedConversationState) : Bool :=
  if text_length = "long" then true
  else if has_phrase text RANT_STARTERS then true
  else if signals.distress_count + signals.positive_count ≥
          CiConfig.VENTING_SIGNAL_THRESHOLD + 1 then true
  else if state.venting_score ≥ CiConfig.VENT_SCORE_THRESHOLD then true
  else false

/-- PhaseEngine._transition_from_current from phase_engine.py. -/
def transition_from_current (current : String) (state : EnhancedConversationState)
    (_text : String) (text_length : String) (emotion : String)
    (_signals : Signals) : String × String :=
  let turn := state.turn_count
  if current = "opening" then
    if emotion = "positive" then ("sharing", "opening_to_sharing_positive")
    else if emotion = "neutral" then ("sharing", "opening_to_sharing_neutral")
    else if emotion = "distress" ∨ emotion = "strong_distress" then
      ("venting", "opening_to_venting_distress")
    else ("sharing", "opening_to_sharing_default")
  else if current = "sharing" then
    if turn ≥ CiConfig.REFLECT_MIN_TURNS ∧ text_length = "short" then
      ("reflecting", "sharing_to_reflecting_pause")
    else if emotion = "distress" ∨ emotion = "strong_distress" then
      ("venting", "sharing_to_venting_distress")
    else ("sharing", "stay_sharing")
  else if current = "venting" then
    if text_length = "short" ∧ turn ≥ 3 then
      ("reflecting", "venting_to_reflecting_pause")
    else ("venting", "stay_venting")
  else if current = "reflecting" then
    if text_length = "long" then ("venting", "reflecting_to_venting_resume")
    else if state.emotion_trend = "improving" ∧ emotion = "positive" then
      ("celebrating", "reflecting_to_celebrating_improved")
    else if state.emotion_trend = "worsening" then
      ("calming", "reflecting_to_calming_worsening")
    else ("reflecting", "stay_reflecting")
  else if current = "calming" then
    if (emotion = "positive" ∨ emotion = "neutral") ∧
       state.emotion_trend ≠ "worsening" then
      ("reflecting", "calming_to_reflecting_stabilized")
    else ("calming", "stay_calming")
  else if current = "celebrating" then
    if emotion = "neutral" then ("sharing", "celebrating_to_sharing_neutral")
    else if emotion = "distress" ∨ emotion = "strong_distress" then
      ("reflecting", "celebrating_to_reflecting_shift")
    else ("celebrating", "stay_celebrating")
  else if current = "closing" then
    if text_length = "medium" ∨ text_length = "long" then
      ("sharing", "closing_to_sharing_continued")
    else ("closing", "stay_closing")
  else (current, "no_transition")

/-- PhaseEngine.determine_phase from phase_engine.py; enabled is the instance
field set from ENABLE_PHASE_ENGINE. -/
def determine_phase (enabled : Bool) (state : EnhancedConversationState)
    (text : String) (emotion : String) (signals : Signals) : String × String :=
  if !enabled then (state.phase, "phase_engine_disabled")
  else
    let current_phase := state.phase
    let turn := state.turn_count
    let text_length := get_text_length_category text
    if turn ≤ 1 then ("opening", "first_message")
    else if has_phrase text CLOSING_PHRASES then ("closing", "exit_phrase_detected")
    else if emotion = "strong_distress" ∨ has_phrase text CALMING_TRIGGERS then
      ("calming", "strong_distress_or_crisis")
    else if state.distress_streak ≥ CiConfig.CALMING_STREAK_THRESHOLD then
      ("calming", "distress_streak_threshold")
    else if emotion = "positive" ∧
            (signals.positive_count ≥ 3 ∨ has_phrase text CELEBRATION_TRIGGERS ∨
             state.positive_streak ≥ CiConfig.CELEBRATING_STREAK_THRESHOLD) then
      ("celebrating", "positive_celebration_trigger")
    else if detect_venting text text_length emotion signals state then
      ("venting", "venting_detected")
    else transition_from_current current_phase state text text_length emotion signals

end PhaseEngine

/-! ## memory_recall_controller.py -/

namespace MemoryRecallController

/-- MemoryRecallController.should_recall_memory from memory_recall_controller.py;
enabled is the instance field set from ENABLE_MEMORY_RECALL, and draw is the
value random.random() returns in the probability gate. -/
def should_recall_memory (enabled : Bool) (state : EnhancedConversationState)
    (phase : String) (_emotion : String) (draw : Rat) : Bool × String :=
  if !enabled then (false, "memory_recall_disabled")
  else if state.turn_count < CiConfig.MEMORY_RECALL_MIN_TURNS then
    (false, "turn_count_too_low_" ++ toString state.turn_count)
  else if ¬ (phase ∈ CiConfig.MEMORY_ALLOWED_PHASES) then
    (false, "phase_not_allowed_" ++ phase)
  else if state.memory_recall_used_this_turn then
    (false, "already_used_this_turn")
  else if state.is_on_cooldown "memory_callback" then
    (false, "on_cooldown")
  else if draw > CiConfig.MEMORY_RECALL_PROBABILITY then
    (false, "probability_skip")
  else (true, "conditions_met")

end MemoryRecallController

/-! ## Theorems -/

/-- Claim C1: the spec requires ConversationIntelligenceLayer.process to
always return an IntelligenceContext and never propagate an exception, but
conversation_intelligence.py imports, at module level, three names from
chatbot.cooldown_manager that cooldown_manager.py does not define (and step
10 of process imports a fourth missing name), so importing the module raises
ImportError before process can ever run: the code contradicts the documented
never-fail contract. -/
theorem c1_conversation_intelligence_import_gap :
    ("apply_cooldowns" ∈ cooldownNamesImportedByConversationIntelligence ∧
      "apply_cooldowns" ∉ cooldownManagerDefinedNames) ∧
    ("filter_replies_by_cooldown" ∈ cooldownNamesImportedByConversationIntelligence ∧
      "filter_replies_by_cooldown" ∉ cooldownManagerDefinedNames) ∧
    ("is_category_on_cooldown" ∈ cooldownNamesImportedByConversationIntelligence ∧
      "is_category_on_cooldown" ∉ cooldownManagerDefinedNames) ∧
    cooldownNameImportedInProcessStep10 ∉ cooldownManagerDefinedNames := by
  decide

/-- Claim C2 counterexample: with ENABLE_COOLDOWNS false, set_cooldown does
NOT update the stored state as it would when enabled: on the empty store it
stores nothing, while the enabled call stores the entry. This refutes the
claim that the state-writing operations update stored state exactly as when
enabled. -/
theorem c2_cooldown_disabled_counterexample :
    CooldownManager.set_cooldown false CooldownManager.emptyStore
        "u1" "breathe_tip" (some 3) "u1" = [] ∧
    CooldownManager.set_cooldown true CooldownManager.emptyStore
        "u1" "breathe_tip" (some 3) "u1" = [("breathe_tip", 3)] := by
  decide

/-- Claim C2 (amended): when the cooldown manager is disabled via
configuration, every query reports not blocked (false / empty), and the
state-writing operations set_cooldown and decrement_cooldowns are no-ops:
they return the stored state unchanged. -/
theorem c2_cooldown_disabled_amended :
    ∀ (st : CooldownManager.Store) (u c : String) (t : Option Int),
      CooldownManager.is_on_cooldown false st u c = false ∧
      CooldownManager.get_blocked_categories false st u = [] ∧
      CooldownManager.set_cooldown false st u c t = st ∧
      CooldownManager.decrement_cooldowns false st u = st :=
  fun _ _ _ _ => ⟨rfl, rfl, rfl, rfl⟩

/-- Claim C9: with the phase engine enabled, determine_phase returns
(opening, first_message) whenever turn_count is at most 1, for every message
text, emotion, and signal counts. -/
theorem c9_first_turn_opening (st : EnhancedConversationState)
    (text emotion : String) (sig : PhaseEngine.Signals)
    (h : st.turn_count ≤ 1) :
    PhaseEngine.determine_phase true st text emotion sig
      = ("opening", "first_message") := by
  simp [PhaseEngine.determine_phase, h]

/-- Claim C9 witness: turn 0 with a text containing closing, crisis and
celebration phrases still yields (opening, first_message). -/
theorem c9_first_turn_opening_witness :
    defaultState.turn_count ≤ 1 ∧
    PhaseEngine.determine_phase true defaultState "bye yay i cant breathe"
        "strong_distress" ⟨5, 5⟩ = ("opening", "first_message") :=
  ⟨by decide,
   c9_first_turn_opening defaultState "bye yay i cant breathe"
     "strong_distress" ⟨5, 5⟩ (by decide)⟩

/-- Claim C4: with the phase engine enabled, on any turn at least 2, a text
containing a closing phrase makes determine_phase return
(closing, exit_phrase_detected), overriding every other signal. -/
theorem c4_closing_phrase_overrides (st : EnhancedConversationState)
    (text emotion : String) (sig : PhaseEngine.Signals)
    (ht : 2 ≤ st.turn_count)
    (hp : PhaseEngine.has_phrase text PhaseEngine.CLOSING_PHRASES = true) :
    PhaseEngine.determine_phase true st text emotion sig
      = ("closing", "exit_phrase_detected") := by
  have h1 : ¬ st.turn_count ≤ 1 := by omega
  simp [PhaseEngine.determine_phase, h1, hp]

/-- Claim C4 witness: the user sends "bye" at turn 5 in phase venting; the
engine returns (closing, exit_phrase_detected) regardless of the venting
heuristic. -/
theorem c4_closing_phrase_overrides_witness :
    2 ≤ ({ turn_count := 5, phase := "venting" } : EnhancedConversationState).turn_count ∧
    PhaseEngine.has_phrase "bye" PhaseEngine.CLOSING_PHRASES = true ∧
    PhaseEngine.determine_phase true { turn_count := 5, phase := "venting" }
        "bye" "neutral" ⟨0, 0⟩ = ("closing", "exit_phrase_detected") :=
  ⟨by decide, by decide,
   c4_closing_phrase_overrides { turn_count := 5, phase := "venting" }
     "bye" "neutral" ⟨0, 0⟩ (by decide) (by decide)⟩

/-- Claim C10: calling update_emotion with a label outside the four streak
categories (for example "mixed") leaves all four streak counters at 0: every
streak is reset and none is incremented. -/
theorem c10_unknown_emotion_resets_streaks (s : EnhancedConversationState)
    (e : String) (h1 : e ≠ "positive") (h2 : e ≠ "neutral")
    (h3 : e ≠ "distress") (h4 : e ≠ "strong_distress") :
    (s.update_emotion e).positive_streak = 0 ∧
    (s.update_emotion e).neutral_streak = 0 ∧
    (s.update_emotion e).distress_streak = 0 ∧
    (s.update_emotion e).strong_distress_streak = 0 := by
  simp [EnhancedConversationState.update_emotion,
        EnhancedConversationState.update_streaks, h1, h2, h3, h4]

/-- Claim C10 witness: a "mixed" update on the default state zeroes all four
streaks. -/
theorem c10_unknown_emotion_resets_streaks_witness :
    "mixed" ≠ "positive" ∧
    (defaultState.update_emotion "mixed").positive_streak = 0 ∧
    (defaultState.update_emotion "mixed").neutral_streak = 0 ∧
    (defaultState.update_emotion "mixed").distress_streak = 0 ∧
    (defaultState.update_emotion "mixed").strong_distress_streak = 0 :=
  ⟨by decide,
   c10_unknown_emotion_resets_streaks defaultState "mixed"
     (by decide) (by decide) (by decide) (by decide)⟩

/-- Claim C6: should_recall_memory returns false (with a reason) whenever
turn_count is below MEMORY_RECALL_MIN_TURNS, for every enabled flag, phase,
emotion, cooldown state, latch, and random draw; and at
turn_count = MEMORY_RECALL_MIN_TURNS the turn gate no longer blocks recall:
with the later gates satisfied the controller answers (true, conditions_met). -/
theorem c6_memory_recall_turn_gate :
    (∀ (enabled : Bool) (st : EnhancedConversationState)
        (phase emotion : String) (draw : Rat),
      st.turn_count < CiConfig.MEMORY_RECALL_MIN_TURNS →
      (MemoryRecallController.should_recall_memory enabled st phase emotion draw).1
        = false) ∧
    (∀ (st : EnhancedConversationState) (phase emotion : String) (draw : Rat),
      st.turn_count = CiConfig.MEMORY_RECALL_MIN_TURNS →
      phase ∈ CiConfig.MEMORY_ALLOWED_PHASES →
      st.memory_recall_used_this_turn = false →
      st.is_on_cooldown "memory_callback" = false →
      draw ≤ CiConfig.MEMORY_RECALL_PROBABILITY →
      MemoryRecallController.should_recall_memory true st phase emotion draw
        = (true, "conditions_met")) := by
  constructor
  · intro enabled st phase emotion draw h
    cases enabled with
    | false => rfl
    | true => simp [MemoryRecallController.should_recall_memory, h]
  · intro st phase emotion draw h1 h2 h3 h4 h5
    simp [MemoryRecallController.should_recall_memory, h1, h2, h3, h4,
          not_lt.mpr h5]

/-- Claim C6 witness: at turn 2 recall is refused for every gate
configuration we instantiate, and at turn 3 in phase reflecting with a draw
of 1/4 the controller answers (true, conditions_met). -/
theorem c6_memory_recall_turn_gate_witness :
    (MemoryRecallController.should_recall_memory true
        { turn_count := 2 } "reflecting" "neutral" 0).1 = false ∧
    MemoryRecallController.should_recall_memory true
        { turn_count := 3 } "reflecting" "neutral" (1 / 4)
      = (true, "conditions_met") :=
  ⟨c6_memory_recall_turn_gate.1 true { turn_count := 2 } "reflecting" "neutral" 0
     (by decide),
   c6_memory_recall_turn_gate.2 { turn_count := 3 } "reflecting" "neutral" (1 / 4)
     (by decide) (by decide) (by decide) (by decide)
     (by norm_num [CiConfig.MEMORY_RECALL_PROBABILITY])⟩

/-- Helper: streak updating never touches the emotion history. -/
theorem update_streaks_history (s : EnhancedConversationState) (e : String) :
    (s.update_streaks e).emotion_history = s.emotion_history := by
  simp only [EnhancedConversationState.update_streaks]
  split_ifs <;> rfl

/-- Helper: the streak mutual-exclusion invariant holds right after one
streak update, from any starting state. -/
theorem streak_invariant_update_streaks (s : EnhancedConversationState) (e : String) :
    streak_invariant (s.update_streaks e) := by
  unfold EnhancedConversationState.update_streaks streak_invariant
  by_cases h1 : e = "positive"
  · simp [h1]
  · by_cases h2 : e = "neutral"
    · simp [h1, h2]
    · by_cases h3 : e = "distress"
      · simp [h1, h2, h3]
      · by_cases h4 : e = "strong_distress"
        · simp [h1, h2, h3, h4]
        · simp [h1, h2, h3, h4]

/-- Helper: the streak counters produced by update_emotion are exactly those
produced by the underlying streak update. -/
theorem update_emotion_streaks (s : EnhancedConversationState) (e : String) :
    (s.update_emotion e).positive_streak = (s.update_streaks e).positive_streak ∧
    (s.update_emotion e).neutral_streak = (s.update_streaks e).neutral_streak ∧
    (s.update_emotion e).distress_streak = (s.update_streaks e).distress_streak ∧
    (s.update_emotion e).strong_distress_streak
      = (s.update_streaks e).strong_distress_streak := by
  unfold EnhancedConversationState.update_emotion EnhancedConversationState.update_streaks
  split_ifs <;> exact ⟨rfl, rfl, rfl, rfl⟩

/-- Helper: the streak mutual-exclusion invariant holds after update_emotion,
from any starting state. -/
theorem streak_invariant_update (s : EnhancedConversationState) (e : String) :
    streak_invariant (s.update_emotion e) := by
  obtain ⟨h1, h2, h3, h4⟩ := update_emotion_streaks s e
  unfold streak_invariant
  rw [h1, h2, h3, h4]
  exact streak_invariant_update_streaks s e

/-- Claim C3: for every sequence of emotion labels fed to update_emotion
starting from a fresh state, after each call at most one of the four streak
counters is non-zero, except that a strong-distress update leaves the
strong-distress and distress streaks non-zero together. -/
theorem c3_streak_mutual_exclusion :
    ∀ (es : List String) (e : String),
      streak_invariant
        ((es ++ [e]).foldl EnhancedConversationState.update_emotion defaultState) := by
  intro es e
  rw [List.foldl_append]
  exact streak_invariant_update _ e

/-- Helper: the trend computation of the source agrees with the spec's
wording (first versus last of the most recent three entries). -/
theorem update_trend_eq_spec (hist : List String) :
    update_trend hist = trend_spec hist := by
  unfold update_trend trend_spec
  by_cases h : hist.length < 3
  · simp [h]
  · rw [if_neg h, if_neg h]
    have hlen : (lastN 3 hist).length = 3 := by
      unfold lastN
      rw [List.length_drop]
      omega
    obtain ⟨a, b, c, habc⟩ := List.length_eq_three.mp hlen
    rw [habc]
    simp

/-- Claim C7: after every call to update_emotion the stored emotion trend is
exactly the spec's trend: unknown below 3 history entries, otherwise
improving, worsening or stable by comparing the valence of the last of the
most recent 3 entries against the first of them. -/
theorem c7_emotion_trend_spec :
    ∀ (s : EnhancedConversationState) (e : String),
      (s.update_emotion e).emotion_trend
        = trend_spec (s.update_emotion e).emotion_history := by
  intro s e
  have h : (s.update_emotion e).emotion_trend
      = update_trend (s.update_emotion e).emotion_history := rfl
  rw [h, update_trend_eq_spec]

/-- Helper: the last-10 slice of a short list is the list itself. -/
theorem lastN_small (l : List String) (h : l.length ≤ 10) : lastN 10 l = l := by
  unfold lastN
  rw [Nat.sub_eq_zero_of_le h, List.drop_zero]

/-- Helper: truncating after appending to an already-truncated history gives
the truncation of the full appended sequence. -/
theorem lastN_step (l : List String) (e : String) :
    (if (lastN 10 l ++ [e]).length > 10 then lastN 10 (lastN 10 l ++ [e])
     else lastN 10 l ++ [e]) = lastN 10 (l ++ [e]) := by
  by_cases h : l.length ≤ 9
  · rw [lastN_small l (by omega), lastN_small (l ++ [e]) (by simp; omega)]
    simp
  · push_neg at h
    have hlen1 : (lastN 10 l).length = 10 := by
      unfold lastN
      rw [List.length_drop]
      omega
    have hcond : (lastN 10 l ++ [e]).length > 10 := by
      rw [List.length_append, hlen1]
      simp
    have hsub : (l ++ [e]).drop (l.length - 10) = l.drop (l.length - 10) ++ [e] :=
      List.drop_append_of_le_length (by omega)
    have h2 : lastN 10 l ++ [e] = (l ++ [e]).drop (l.length - 10) := by
      unfold lastN
      rw [hsub]
    rw [if_pos hcond, h2]
    unfold lastN
    rw [List.length_drop, List.drop_drop]
    congr 1
    simp only [List.length_append, List.length_cons, List.length_nil]
    omega

/-- Helper: update_emotion performs exactly the bounded append on the
emotion history. -/
theorem update_emotion_history (s : EnhancedConversationState) (e : String) :
    (s.update_emotion e).emotion_history =
      if (s.emotion_history ++ [e]).length > MAX_EMOTION_HISTORY
      then lastN MAX_EMOTION_HISTORY (s.emotion_history ++ [e])
      else s.emotion_history ++ [e] := by
  simp only [EnhancedConversationState.update_emotion]
  rw [update_streaks_history]

/-- Helper: folding update_emotion keeps the history equal to the last-10
slice of everything appended so far. -/
theorem history_fold (es : List String) :
    ∀ (s : EnhancedConversationState) (l : List String),
      s.emotion_history = lastN 10 l →
      (es.foldl EnhancedConversationState.update_emotion s).emotion_history
        = lastN 10 (l ++ es) := by
  induction es with
  | nil =>
      intro s l h
      simpa using h
  | cons e es ih =>
      intro s l h
      rw [List.foldl_cons]
      have hstep : (s.update_emotion e).emotion_history = lastN 10 (l ++ [e]) := by
        rw [update_emotion_history, h]
        exact lastN_step l e
      have h2 := ih (s.update_emotion e) (l ++ [e]) hstep
      rw [h2, List.append_assoc]
      rfl

/-- Claim C8: for every sequence of update_emotion calls starting from a
fresh state, the emotion history equals the last 10 emotions appended, in
order, and its length never exceeds 10. -/
theorem c8_emotion_history_fifo :
    ∀ (es : List String),
      (es.foldl EnhancedConversationState.update_emotion defaultState).emotion_history
        = lastN 10 es ∧
      (es.foldl EnhancedConversationState.update_emotion defaultState).emotion_history.length
        ≤ 10 := by
  intro es
  have h := history_fold es defaultState [] rfl
  rw [List.nil_append] at h
  refine ⟨h, ?_⟩
  rw [h]
  unfold lastN
  rw [List.length_drop]
  omega

/-- Helper: membership in one decrement pass of the cooldown dictionary. -/
theorem mem_decOnce {a : String} {b : Int} {l : List (String × Int)} :
    (a, b) ∈ CooldownManager.decOnce l ↔ ∃ w, (a, w) ∈ l ∧ w > 1 ∧ b = w - 1 := by
  unfold CooldownManager.decOnce
  rw [List.mem_filterMap]
  constructor
  · rintro ⟨⟨k, w⟩, hmem, hf⟩
    by_cases hw : w > 1
    · rw [if_pos hw] at hf
      simp only [Option.some.injEq, Prod.mk.injEq] at hf
      obtain ⟨rfl, rfl⟩ := hf
      exact ⟨w, hmem, hw, rfl⟩
    · rw [if_neg hw] at hf
      exact absurd hf (by simp)
  · rintro ⟨w, hmem, hw, hb⟩
    refine ⟨(a, w), hmem, ?_⟩
    rw [if_pos hw, hb]

/-- Helper: the key list shrinks (as a sublist) under one decrement pass. -/
theorem keys_decOnce_sublist (l : List (String × Int)) :
    List.Sublist (CooldownManager.keys (CooldownManager.decOnce l))
      (CooldownManager.keys l) := by
  induction l with
  | nil => simp [CooldownManager.decOnce, CooldownManager.keys]
  | cons p t ih =>
      by_cases hp : p.2 > 1
      · simp only [CooldownManager.decOnce, CooldownManager.keys,
                   List.filterMap_cons, if_pos hp, List.map_cons] at *
        exact List.Sublist.cons₂ p.1 ih
      · simp only [CooldownManager.decOnce, CooldownManager.keys,
                   List.filterMap_cons, if_neg hp, List.map_cons] at *
        exact List.Sublist.cons p.1 ih

/-- Helper: in a dictionary with distinct keys, the value at a key is unique. -/
theorem nodup_key_unique : ∀ {l : List (String × Int)} {c : String} {v w : Int},
    (CooldownManager.keys l).Nodup → (c, v) ∈ l → (c, w) ∈ l → v = w := by
  intro l
  induction l with
  | nil =>
      intro c v w _ hv _
      exact absurd hv (List.not_mem_nil _)
  | cons p t ih =>
      intro c v w hnd hv hw
      have hnd2 := List.nodup_cons.mp
        (show (p.1 :: CooldownManager.keys t).Nodup from hnd)
      rcases List.mem_cons.mp hv with h1 | h1 <;> rcases List.mem_cons.mp hw with h2 | h2
      · exact congrArg Prod.snd (h1.trans h2.symm)
      · subst h1
        exact absurd (List.mem_map.mpr ⟨(c, w), h2, rfl⟩) hnd2.1
      · subst h2
        exact absurd (List.mem_map.mpr ⟨(c, v), h1, rfl⟩) hnd2.1
      · exact ih hnd2.2 h1 h2

/-- Helper: a key absent from the dictionary stays absent under a pass. -/
theorem not_mem_keys_decOnce {c : String} {l : List (String × Int)}
    (h : c ∉ CooldownManager.keys l) :
    c ∉ CooldownManager.keys (CooldownManager.decOnce l) :=
  fun hc => h ((keys_decOnce_sublist l).subset hc)

/-- Helper: a key absent from the dictionary stays absent under any number
of passes. -/
theorem not_mem_keys_decOnce_iter {c : String} (n : Nat) :
    ∀ {l : List (String × Int)}, c ∉ CooldownManager.keys l →
      c ∉ CooldownManager.keys (CooldownManager.decOnce^[n] l) := by
  induction n with
  | zero =>
      intro l h
      simpa using h
  | succ k ih =>
      intro l h
      rw [Function.iterate_succ_apply]
      exact ih (not_mem_keys_decOnce h)

/-- Helper: an entry at value at most 1 is deleted by one decrement pass. -/
theorem decOnce_removes_low {c : String} {v : Int} {l : List (String × Int)}
    (hnd : (CooldownManager.keys l).Nodup) (hv : (c, v) ∈ l) (hle : v ≤ 1) :
    c ∉ CooldownManager.keys (CooldownManager.decOnce l) := by
  intro hc
  obtain ⟨p, hpmem, hpfst⟩ := List.mem_map.mp hc
  have hpm : (c, p.2) ∈ CooldownManager.decOnce l := by
    rw [← hpfst]
    exact hpmem
  obtain ⟨w, hwmem, hw1, _⟩ := mem_decOnce.mp hpm
  have := nodup_key_unique hnd hv hwmem
  omega

/-- Helper: an entry set to a value at most n+1 is gone after n+1 decrement
passes. -/
theorem decOnce_iterate_removes {c : String} :
    ∀ (n : Nat) (l : List (String × Int)) (v : Int),
      (CooldownManager.keys l).Nodup → (c, v) ∈ l → v ≤ (n : Int) + 1 →
      c ∉ CooldownManager.keys (CooldownManager.decOnce^[n + 1] l) := by
  intro n
  induction n with
  | zero =>
      intro l v hnd hv hle
      rw [Function.iterate_one]
      exact decOnce_removes_low hnd hv (by omega)
  | succ k ih =>
      intro l v hnd hv hle
      rw [Function.iterate_succ_apply]
      by_cases hv1 : v ≤ 1
      · exact not_mem_keys_decOnce_iter (k + 1) (decOnce_removes_low hnd hv hv1)
      · push_neg at hv1
        exact ih (CooldownManager.decOnce l) (v - 1)
          ((keys_decOnce_sublist l).nodup hnd)
          (mem_decOnce.mpr ⟨v, hv, hv1, rfl⟩)
          (by omega)

/-- Helper: the written entry is a member of the updated dictionary. -/
theorem self_mem_setAssoc (l : List (String × Int)) (c : String) (v : Int) :
    (c, v) ∈ CooldownManager.setAssoc l c v := by
  induction l with
  | nil => simp [CooldownManager.setAssoc]
  | cons p t ih =>
      obtain ⟨k, w⟩ := p
      simp only [CooldownManager.setAssoc]
      by_cases h : k = c
      · rw [if_pos h]
        exact List.mem_cons_self _ _
      · rw [if_neg h]
        exact List.mem_cons_of_mem _ ih

/-- Helper: keys after a dictionary write come from the written key or the
old keys. -/
theorem keys_setAssoc_subset (l : List (String × Int)) (c : String) (v : Int) :
    ∀ a, a ∈ CooldownManager.keys (CooldownManager.setAssoc l c v) →
      a = c ∨ a ∈ CooldownManager.keys l := by
  induction l with
  | nil =>
      intro a ha
      simp [CooldownManager.setAssoc, CooldownManager.keys] at ha
      exact Or.inl ha
  | cons p t ih =>
      obtain ⟨k, w⟩ := p
      intro a ha
      simp only [CooldownManager.setAssoc] at ha
      by_cases h : k = c
      · rw [if_pos h] at ha
        simp only [CooldownManager.keys, List.map_cons, List.mem_cons] at ha ⊢
        rcases ha with rfl | ha
        · exact Or.inl rfl
        · exact Or.inr (Or.inr ha)
      · rw [if_neg h] at ha
        simp only [CooldownManager.keys, List.map_cons, List.mem_cons] at ha ⊢
        rcases ha with rfl | ha
        · exact Or.inr (Or.inl rfl)
        · rcases ih a ha with h1 | h1
          · exact Or.inl h1
          · exact Or.inr (Or.inr h1)

/-- Helper: a dictionary write preserves distinctness of keys. -/
theorem nodup_keys_setAssoc (c : String) (v : Int) :
    ∀ (l : List (String × Int)), (CooldownManager.keys l).Nodup →
      (CooldownManager.keys (CooldownManager.setAssoc l c v)).Nodup := by
  intro l
  induction l with
  | nil =>
      intro _
      simp [CooldownManager.setAssoc, CooldownManager.keys]
  | cons p t ih =>
      obtain ⟨k, w⟩ := p
      intro h
      have h2 := List.nodup_cons.mp
        (show (k :: CooldownManager.keys t).Nodup from h)
      simp only [CooldownManager.setAssoc]
      by_cases hk : k = c
      · rw [if_pos hk]
        simp only [CooldownManager.keys, List.map_cons]
        exact List.nodup_cons.mpr ⟨hk ▸ h2.1, h2.2⟩
      · rw [if_neg hk]
        simp only [CooldownManager.keys, List.map_cons]
        refine List.nodup_cons.mpr ⟨?_, ih h2.2⟩
        intro hmem
        rcases keys_setAssoc_subset t c v k hmem with h1 | h1
        · exact hk h1
        · exact h2.1 h1

/-- Helper: iterating the per-user decrement on the store, observed at that
user, is iterating the one-pass decrement on that user's dictionary. -/
theorem iterate_decrement_at (u : String) :
    ∀ (n : Nat) (st : CooldownManager.Store),
      ((fun s => CooldownManager.decrement_cooldowns true s u)^[n] st) u
        = CooldownManager.decOnce^[n] (st u) := by
  intro n
  induction n with
  | zero =>
      intro st
      rfl
  | succ k ih =>
      intro st
      rw [Function.iterate_succ_apply, Function.iterate_succ_apply, ih]
      congr 1
      simp [CooldownManager.decrement_cooldowns]

/-- Helper: an enabled set_cooldown with explicit turns writes exactly that
entry into the user's dictionary. -/
theorem set_cooldown_at (st : CooldownManager.Store) (u c : String) (t : Int) :
    (CooldownManager.set_cooldown true st u c (some t)) u
      = CooldownManager.setAssoc (st u) c t := by
  simp [CooldownManager.set_cooldown]

/-- Helper: every blocked category is a key of the user's dictionary. -/
theorem blocked_subset_keys (st : CooldownManager.Store) (u : String) (a : String)
    (h : a ∈ CooldownManager.get_blocked_categories true st u) :
    a ∈ CooldownManager.keys (st u) := by
  simp only [CooldownManager.get_blocked_categories, Bool.not_true,
             Bool.false_eq_true, if_false] at h
  obtain ⟨p, hp, hpa⟩ := List.mem_map.mp h
  exact List.mem_map.mpr ⟨p, (List.mem_filter.mp hp).1, hpa⟩

/-- Claim C5: setting a category's cooldown to n at least 1 for a user and
then applying the decrement-all operation exactly n times removes the
category from that user's cooldown dictionary, so get_blocked_categories no
longer contains it. -/
theorem c5_cooldown_expires_after_n (st : CooldownManager.Store) (u c : String)
    (n : Nat) (hn : 1 ≤ n) (hnd : (CooldownManager.keys (st u)).Nodup) :
    c ∉ CooldownManager.keys
        (((fun s => CooldownManager.decrement_cooldowns true s u)^[n]
          (CooldownManager.set_cooldown true st u c (some (n : Int)))) u) ∧
    c ∉ CooldownManager.get_blocked_categories true
        ((fun s => CooldownManager.decrement_cooldowns true s u)^[n]
          (CooldownManager.set_cooldown true st u c (some (n : Int)))) u := by
  obtain ⟨k, rfl⟩ : ∃ k, n = k + 1 := ⟨n - 1, by omega⟩
  have hkey : c ∉ CooldownManager.keys
      (((fun s => CooldownManager.decrement_cooldowns true s u)^[k + 1]
        (CooldownManager.set_cooldown true st u c (some ((k + 1 : Nat) : Int)))) u) := by
    rw [iterate_decrement_at, set_cooldown_at]
    exact decOnce_iterate_removes k _ ((k + 1 : Nat) : Int)
      (nodup_keys_setAssoc c _ _ hnd) (self_mem_setAssoc _ _ _) (by push_cast; omega)
  exact ⟨hkey, fun hb => hkey (blocked_subset_keys _ _ _ hb)⟩

/-- Claim C5 witness: a cooldown of 3 turns on breathe_tip expires after
exactly 3 decrements on the empty store. -/
theorem c5_cooldown_expires_after_n_witness :
    (1 ≤ 3) ∧
    (CooldownManager.keys (CooldownManager.emptyStore "u1")).Nodup ∧
    ("breathe_tip" ∉ CooldownManager.keys
        (((fun s => CooldownManager.decrement_cooldowns true s "u1")^[3]
          (CooldownManager.set_cooldown true CooldownManager.emptyStore "u1"
            "breathe_tip" (some ((3 : Nat) : Int)))) "u1") ∧
     "breathe_tip" ∉ CooldownManager.get_blocked_categories true
        ((fun s => CooldownManager.decrement_cooldowns true s "u1")^[3]
          (CooldownManager.set_cooldown true CooldownManager.emptyStore "u1"
            "breathe_tip" (some ((3 : Nat) : Int)))) "u1") :=
  ⟨by decide, by simp [CooldownManager.emptyStore, CooldownManager.keys],
   c5_cooldown_expires_after_n CooldownManager.emptyStore "u1" "breathe_tip" 3
     (by decide) (by simp [CooldownManager.emptyStore, CooldownManager.keys])⟩

end Chatbot
